import Mathlib

/-!
Verification of the location-aware visibility resolver of the islalist
backend (Django, `backend/api/views.py` and `backend/api/models.py`).

The embedding models:
* the location directory (`Province`, `Municipality`, `Barangay` rows with
  their unique `psgc_code` columns and parent foreign keys);
* the content rows (`Listing`, `Announcement`) with exactly the
  nullability of their location foreign keys as declared in
  `models.py` (a `ForeignKey` with `null=True` becomes an `Option`,
  one without stays a plain id);
* the hierarchical location filtering performed by
  `ListingViewSet.get_queryset` (as `resolve_listings`) and
  `AnnouncementViewSet.get_queryset` (as `resolve_announcements`),
  mirroring the branch structure, the `Q(...)` filters, the
  `psgc_code` lookups, and the expiry handling of the source.

Query parameters are `Option String` (absent or a string); Django/Python
treats an empty string as falsy in `if province_code and ...`, which
`present` reproduces.  `Model.objects.get(psgc_code=..., parent=...)`
with a caught `DoesNotExist` is modelled by `List.find?` (the
`psgc_code` columns are declared `unique=True`, so at most one row can
match).  Dates (`timezone.now().date()` and `expiry_date`) are
modelled as integers with the usual order.
-/

namespace IslaList

/-- A row of the `Province` table: primary key and nullable unique
`psgc_code` (`models.py`, class `Province`). -/
structure Province where
  id : Nat
  psgcCode : Option String
deriving DecidableEq, Repr

/-- A row of the `Municipality` table: primary key, nullable unique
`psgc_code`, and the non-nullable `province` foreign key
(`models.py`, class `Municipality`). -/
structure Municipality where
  id : Nat
  psgcCode : Option String
  provinceId : Nat
deriving DecidableEq, Repr

/-- A row of the `Barangay` table: primary key, nullable unique
`psgc_code`, and the non-nullable `municipality` foreign key
(`models.py`, class `Barangay`). -/
structure Barangay where
  id : Nat
  psgcCode : Option String
  municipalityId : Nat
deriving DecidableEq, Repr

/-- The location directory: the three reference tables. -/
structure Directory where
  provinces : List Province
  municipalities : List Municipality
  barangays : List Barangay

/-- The lookup `Province.objects.get(psgc_code=code)` with
`DoesNotExist` caught: the unique row whose `psgc_code` equals the
supplied code, if any. -/
def getProvince (d : Directory) (code : String) : Option Province :=
  d.provinces.find? (fun p => decide (p.psgcCode = some code))

/-- The lookup `Municipality.objects.get(psgc_code=code, province=p)`
with `DoesNotExist` caught. -/
def getMunicipality (d : Directory) (code : String) (p : Province) :
    Option Municipality :=
  d.municipalities.find?
    (fun m => decide (m.psgcCode = some code) && decide (m.provinceId = p.id))

/-- The lookup `Municipality.objects.get(psgc_code=code)` with no
province constraint, used by the announcements municipality-only branch. -/
def getMunicipalityByCode (d : Directory) (code : String) :
    Option Municipality :=
  d.municipalities.find? (fun m => decide (m.psgcCode = some code))

/-- The lookup `Barangay.objects.get(psgc_code=code, municipality=m)`
with `DoesNotExist` caught. -/
def getBarangay (d : Directory) (code : String) (m : Municipality) :
    Option Barangay :=
  d.barangays.find?
    (fun b => decide (b.psgcCode = some code) && decide (b.municipalityId = m.id))

/-- A row of the `Listing` table, restricted to its location columns:
`province`, `municipality`, `barangay` are each `ForeignKey(...,
null=True)` in `models.py`, hence all three are `Option`. -/
structure Listing where
  id : Nat
  provinceId : Option Nat
  municipalityId : Option Nat
  barangayId : Option Nat
deriving DecidableEq, Repr

/-- The `priority` choices of `Announcement` (`PRIORITY_CHOICES`). -/
inductive AnnPriority where
  | low
  | medium
  | high
  | urgent
deriving DecidableEq, Repr

/-- A row of the `Announcement` table, restricted to the columns the
resolver reads.  In `models.py` the `province` and `municipality`
foreign keys carry no `null=True`, so they are plain ids here; only
`barangay` is nullable. -/
structure Announcement where
  id : Nat
  priority : AnnPriority
  provinceId : Nat
  municipalityId : Nat
  barangayId : Option Nat
  isProvinceWide : Bool
  isMunicipalityWide : Bool
  expiryDate : Option Int
  isActive : Bool
deriving DecidableEq, Repr

/-- Python truthiness of an optional query parameter: present and
non-empty (`if province_code and municipality_code ...`). -/
def present : Option String → Bool
  | none => false
  | some s => decide (s ≠ "")

/-- The string value of a query parameter (only consulted by the code
once `present` holds). -/
def getParam : Option String → String
  | none => ""
  | some s => s

/-- The hierarchical location filtering of `ListingViewSet.get_queryset`
(`views.py`): three branches for province+municipality+barangay,
province+municipality, and province-only codes, each resolving the
codes against the directory (empty result on a failed lookup) and then
filtering the base queryset with the source's `Q` expressions. -/
def resolve_listings (d : Directory) (base : List Listing)
    (provinceCode municipalityCode barangayCode : Option String) :
    List Listing :=
  if present provinceCode && present municipalityCode && present barangayCode then
    match getProvince d (getParam provinceCode) with
    | none => []
    | some p =>
      match getMunicipality d (getParam municipalityCode) p with
      | none => []
      | some m =>
        match getBarangay d (getParam barangayCode) m with
        | none => []
        | some b =>
          base.filter (fun l =>
            decide (l.barangayId = some b.id) ||
            (decide (l.municipalityId = some m.id) && decide (l.barangayId = none)) ||
            (decide (l.provinceId = some p.id) && decide (l.municipalityId = none) &&
              decide (l.barangayId = none)))
  else if present provinceCode && present municipalityCode then
    match getProvince d (getParam provinceCode) with
    | none => []
    | some p =>
      match getMunicipality d (getParam municipalityCode) p with
      | none => []
      | some m =>
        base.filter (fun l =>
          decide (l.municipalityId = some m.id) ||
          (decide (l.provinceId = some p.id) && decide (l.municipalityId = none)))
  else if present provinceCode then
    match getProvince d (getParam provinceCode) with
    | none => []
    | some p => base.filter (fun l => decide (l.provinceId = some p.id))
  else
    base

/-- The string literal false, the default of the include_expired query
parameter. -/
def strFalse : String := "false"

/-- The string literal true, the value that disables expiry filtering. -/
def strTrue : String := "true"

/-- The `exclude(expiry_date__lt=today)` test: true exactly when the
announcement has a non-null `expiry_date` strictly before `today`
(an SQL comparison against NULL matches nothing, so a null
`expiry_date` is never excluded). -/
def expiredBefore (a : Announcement) (today : Int) : Bool :=
  match a.expiryDate with
  | none => false
  | some e => decide (e < today)

/-- Python `str.lower()` on a query parameter, as used by
`include_expired.lower()`: lower-case every character. -/
def strLower (s : String) : String := ⟨s.data.map Char.toLower⟩

/-- Whether an announcement survives the expiry stage for a given
`include_expired` query parameter: the stage runs unless the parameter
lower-cases to the string true (`include_expired` defaults to the
string false). -/
def keepsUnderExpiryPolicy (includeExpired : Option String)
    (a : Announcement) (today : Int) : Bool :=
  if strLower (includeExpired.getD strFalse) ≠ strTrue then !expiredBefore a today
  else true

/-- The first two stages of `AnnouncementViewSet.get_queryset`: the class
queryset `Announcement.objects.filter(is_active=True)`, then the expiry
exclusion `exclude(expiry_date__lt=today)` unless the `include_expired`
parameter (defaulting to the string false) lower-cases to true. -/
def activeUnexpired (base : List Announcement) (includeExpired : Option String)
    (today : Int) : List Announcement :=
  let qs := base.filter (fun a => a.isActive)
  if strLower (includeExpired.getD strFalse) ≠ strTrue then
    qs.filter (fun a => !expiredBefore a today)
  else qs

/-- The queryset of `AnnouncementViewSet.get_queryset` (`views.py`):
the active and expiry stages (`activeUnexpired`), then the four
location branches (barangay+municipality+province,
municipality+province, municipality without province, province
without municipality), each resolving codes against the directory
(empty on a failed lookup) and filtering with the source's `Q`
expressions. -/
def resolve_announcements (d : Directory) (base : List Announcement)
    (includeExpired : Option String)
    (provinceCode municipalityCode barangayCode : Option String)
    (today : Int) : List Announcement :=
  let qs := activeUnexpired base includeExpired today
  if present barangayCode && present municipalityCode && present provinceCode then
    match getProvince d (getParam provinceCode) with
    | none => []
    | some p =>
      match getMunicipality d (getParam municipalityCode) p with
      | none => []
      | some m =>
        match getBarangay d (getParam barangayCode) m with
        | none => []
        | some b =>
          qs.filter (fun a =>
            (decide (a.barangayId = some b.id) && decide (a.municipalityId = m.id) &&
              decide (a.provinceId = p.id)) ||
            (a.isMunicipalityWide && decide (a.municipalityId = m.id) &&
              decide (a.provinceId = p.id) &&
              (decide (a.priority = AnnPriority.high) ||
                decide (a.priority = AnnPriority.urgent))) ||
            (a.isProvinceWide && decide (a.provinceId = p.id) &&
              decide (a.priority = AnnPriority.urgent)))
  else if present municipalityCode && present provinceCode then
    match getProvince d (getParam provinceCode) with
    | none => []
    | some p =>
      match getMunicipality d (getParam municipalityCode) p with
      | none => []
      | some m =>
        qs.filter (fun a =>
          (decide (a.municipalityId = m.id) && decide (a.provinceId = p.id)) ||
          (a.isProvinceWide && decide (a.provinceId = p.id)))
  else if present municipalityCode && !present provinceCode then
    match getMunicipalityByCode d (getParam municipalityCode) with
    | none => []
    | some m => qs.filter (fun a => decide (a.municipalityId = m.id))
  else if present provinceCode && !present municipalityCode then
    match getProvince d (getParam provinceCode) with
    | none => []
    | some p => qs.filter (fun a => decide (a.provinceId = p.id))
  else
    qs

/-! ### Concrete sample data

A small directory used by witnesses and counterexamples: province P1
(PSGC code 112300000) with municipalities M1 (112314000) and M2
(112302000) under it, and barangay B1 (112314001) under M1. -/

/-- PSGC code of sample province P1. -/
def codeP1 : String := "112300000"

/-- PSGC code of sample municipality M1. -/
def codeM1 : String := "112314000"

/-- PSGC code of sample municipality M2. -/
def codeM2 : String := "112302000"

/-- PSGC code of sample barangay B1. -/
def codeB1 : String := "112314001"

/-- A code matching no directory row. -/
def codeUnknown : String := "NONEXISTENT"

/-- Province P1 of the sample directory. -/
def provP1 : Province := ⟨1, some codeP1⟩

/-- Municipality M1 under P1. -/
def munM1 : Municipality := ⟨1, some codeM1, 1⟩

/-- Municipality M2 under P1. -/
def munM2 : Municipality := ⟨2, some codeM2, 1⟩

/-- Barangay B1 under M1. -/
def brgyB1 : Barangay := ⟨1, some codeB1, 1⟩

/-- The sample location directory. -/
def sampleDir : Directory := ⟨[provP1], [munM1, munM2], [brgyB1]⟩

/-! ### Helper lemmas -/

/-- Python truthiness of a supplied parameter: a non-empty string is
present. -/
theorem present_some {s : String} (h : s ≠ "") : present (some s) = true := by
  simp [present, h]

/-- An absent parameter is not present. -/
theorem present_none : present none = false := rfl

/-- Membership in the active+expiry stage of the announcements
queryset. -/
theorem mem_activeUnexpired {base : List Announcement} {ie : Option String}
    {today : Int} {a : Announcement} :
    a ∈ activeUnexpired base ie today ↔
      a ∈ base ∧ a.isActive = true ∧ keepsUnderExpiryPolicy ie a today = true := by
  by_cases h : strLower (ie.getD strFalse) = strTrue
  · simp [activeUnexpired, keepsUnderExpiryPolicy, h, List.mem_filter, and_assoc]
  · simp [activeUnexpired, keepsUnderExpiryPolicy, h, List.mem_filter, and_assoc]
    tauto

/-- A municipality-wide announcement under M1 with priority low. -/
def annMWLow : Announcement := ⟨1, AnnPriority.low, 1, 1, none, false, true, none, true⟩

/-- A municipality-wide announcement under M1 with priority high. -/
def annMWHigh : Announcement := ⟨2, AnnPriority.high, 1, 1, none, false, true, none, true⟩

/-- A province-wide announcement under P1 with priority high. -/
def annPWHigh : Announcement := ⟨3, AnnPriority.high, 1, 1, none, true, false, none, true⟩

/-- A province-wide announcement under P1 with priority urgent. -/
def annPWUrgent : Announcement := ⟨4, AnnPriority.urgent, 1, 1, none, true, false, none, true⟩

/-- An active announcement whose expiry date lies strictly in the past
relative to day 0. -/
def annExpired : Announcement := ⟨5, AnnPriority.medium, 1, 1, none, false, false, some (-1), true⟩

/-- C1: at barangay scope (province, municipality and barangay codes all
resolving), an announcement is returned exactly when it survives the
active and expiry stages and falls in one of three tiers: exact
barangay+municipality+province match at any priority;
municipality-wide with matching municipality and province at priority
high or urgent; province-wide with matching province at priority
urgent exactly. -/
theorem announcements_barangay_scope_tiers
    (d : Directory) (base : List Announcement) (ie : Option String)
    (pc mc bc : String) (today : Int)
    (p : Province) (m : Municipality) (b : Barangay)
    (hpc : pc ≠ "") (hmc : mc ≠ "") (hbc : bc ≠ "")
    (hp : getProvince d pc = some p)
    (hm : getMunicipality d mc p = some m)
    (hb : getBarangay d bc m = some b)
    (a : Announcement) :
    a ∈ resolve_announcements d base ie (some pc) (some mc) (some bc) today ↔
      a ∈ base ∧ a.isActive = true ∧ keepsUnderExpiryPolicy ie a today = true ∧
        ((a.barangayId = some b.id ∧ a.municipalityId = m.id ∧ a.provinceId = p.id) ∨
         (a.isMunicipalityWide = true ∧ a.municipalityId = m.id ∧ a.provinceId = p.id ∧
           (a.priority = AnnPriority.high ∨ a.priority = AnnPriority.urgent)) ∨
         (a.isProvinceWide = true ∧ a.provinceId = p.id ∧ a.priority = AnnPriority.urgent)) := by
  simp [resolve_announcements, getParam, present_some hpc, present_some hmc,
    present_some hbc, hp, hm, hb, List.mem_filter, mem_activeUnexpired, and_assoc]
  tauto

/-- Witness for C1: in the sample directory, the municipality-wide
high-priority sample announcement is returned at barangay B1. -/
theorem announcements_barangay_scope_tiers_witness :
    annMWHigh ∈ resolve_announcements sampleDir [annMWLow, annMWHigh] none
      (some codeP1) (some codeM1) (some codeB1) 0 :=
  (announcements_barangay_scope_tiers sampleDir [annMWLow, annMWHigh] none
      codeP1 codeM1 codeB1 0 provP1 munM1 brgyB1
      (by decide) (by decide) (by decide) (by decide) (by decide) (by decide)
      annMWHigh).mpr (by decide)

/-- C3: at municipality scope (province and municipality codes resolving,
no barangay code), an announcement is returned exactly when it
survives the active and expiry stages and either matches the
municipality and province exactly (any priority, any flags, barangay
field unconstrained) or is province-wide with matching province (any
priority). -/
theorem announcements_municipality_scope_tiers
    (d : Directory) (base : List Announcement) (ie : Option String)
    (pc mc : String) (today : Int)
    (p : Province) (m : Municipality)
    (hpc : pc ≠ "") (hmc : mc ≠ "")
    (hp : getProvince d pc = some p)
    (hm : getMunicipality d mc p = some m)
    (a : Announcement) :
    a ∈ resolve_announcements d base ie (some pc) (some mc) none today ↔
      a ∈ base ∧ a.isActive = true ∧ keepsUnderExpiryPolicy ie a today = true ∧
        ((a.municipalityId = m.id ∧ a.provinceId = p.id) ∨
         (a.isProvinceWide = true ∧ a.provinceId = p.id)) := by
  simp [resolve_announcements, getParam, present_none, present_some hpc,
    present_some hmc, hp, hm, List.mem_filter, mem_activeUnexpired, and_assoc]

/-- Witness for C3: the province-wide high-priority sample announcement
is returned at municipality M1 even though its priority is below
urgent. -/
theorem announcements_municipality_scope_tiers_witness :
    annPWHigh ∈ resolve_announcements sampleDir [annPWHigh] none
      (some codeP1) (some codeM1) none 0 :=
  (announcements_municipality_scope_tiers sampleDir [annPWHigh] none
      codeP1 codeM1 0 provP1 munM1
      (by decide) (by decide) (by decide) (by decide) annPWHigh).mpr (by decide)

/-- Listing A of the end-to-end scenario: province P1, municipality and
barangay null (province-wide by omission). -/
def listA : Listing := ⟨1, some 1, none, none⟩

/-- Listing B of the end-to-end scenario: province P1, municipality M1,
barangay null. -/
def listB : Listing := ⟨2, some 1, some 1, none⟩

/-- A listing with a full location path P1, M1, B1. -/
def listFull : Listing := ⟨3, some 1, some 1, some 1⟩

/-- A listing with province P1, a null municipality, but a non-null
barangay reference (the model enforces no path consistency between the
three independently nullable columns). -/
def listOrphanB : Listing := ⟨4, some 1, none, some 7⟩

/-- Characterization of the municipality branch of
`ListingViewSet.get_queryset`. -/
theorem mem_resolve_listings_municipality
    (d : Directory) (base : List Listing) (pc mc : String)
    (p : Province) (m : Municipality)
    (hpc : pc ≠ "") (hmc : mc ≠ "")
    (hp : getProvince d pc = some p)
    (hm : getMunicipality d mc p = some m)
    (l : Listing) :
    l ∈ resolve_listings d base (some pc) (some mc) none ↔
      l ∈ base ∧
        (l.municipalityId = some m.id ∨
         (l.provinceId = some p.id ∧ l.municipalityId = none)) := by
  simp [resolve_listings, getParam, present_none, present_some hpc,
    present_some hmc, hp, hm, List.mem_filter, and_assoc]

/-- Characterization of the province-only branch of
`ListingViewSet.get_queryset`. -/
theorem mem_resolve_listings_province
    (d : Directory) (base : List Listing) (pc : String) (p : Province)
    (hpc : pc ≠ "")
    (hp : getProvince d pc = some p)
    (l : Listing) :
    l ∈ resolve_listings d base (some pc) none none ↔
      l ∈ base ∧ l.provinceId = some p.id := by
  simp [resolve_listings, getParam, present_none, present_some hpc, hp,
    List.mem_filter]

/-- C2 counterexample: a listing with province P1, municipality null and
a stray non-null barangay reference sits in the claimed
province-wide-by-omission tier (municipality null, province matching),
yet the barangay-scope query does not return it: the code's third
disjunct also demands a null barangay. -/
theorem listings_barangay_scope_counterexample :
    listOrphanB.municipalityId = none ∧ listOrphanB.provinceId = some provP1.id ∧
    getProvince sampleDir codeP1 = some provP1 ∧
    getMunicipality sampleDir codeM1 provP1 = some munM1 ∧
    getBarangay sampleDir codeB1 munM1 = some brgyB1 ∧
    listOrphanB ∉ resolve_listings sampleDir [listOrphanB]
      (some codeP1) (some codeM1) (some codeB1) := by
  decide

/-- C2 (amended): at barangay scope (all three codes resolving), a
listing is returned exactly when it matches the resolved barangay, or
has a null barangay and matches the resolved municipality, or has a
null barangay AND a null municipality and matches the resolved
province. -/
theorem listings_barangay_scope_tiers
    (d : Directory) (base : List Listing) (pc mc bc : String)
    (p : Province) (m : Municipality) (b : Barangay)
    (hpc : pc ≠ "") (hmc : mc ≠ "") (hbc : bc ≠ "")
    (hp : getProvince d pc = some p)
    (hm : getMunicipality d mc p = some m)
    (hb : getBarangay d bc m = some b)
    (l : Listing) :
    l ∈ resolve_listings d base (some pc) (some mc) (some bc) ↔
      l ∈ base ∧
        (l.barangayId = some b.id ∨
         (l.municipalityId = some m.id ∧ l.barangayId = none) ∨
         (l.provinceId = some p.id ∧ l.municipalityId = none ∧
           l.barangayId = none)) := by
  simp [resolve_listings, getParam, present_some hpc, present_some hmc,
    present_some hbc, hp, hm, hb, List.mem_filter, and_assoc]
  tauto

/-- Witness for the amended C2: the municipality-tier sample listing is
returned at barangay B1. -/
theorem listings_barangay_scope_tiers_witness :
    listB ∈ resolve_listings sampleDir [listB]
      (some codeP1) (some codeM1) (some codeB1) :=
  (listings_barangay_scope_tiers sampleDir [listB]
      codeP1 codeM1 codeB1 provP1 munM1 brgyB1
      (by decide) (by decide) (by decide) (by decide) (by decide) (by decide)
      listB).mpr (by decide)

/-- C6: a listing with a matching province and a null municipality is
returned by every province+municipality query resolving to that
province, whichever municipality is queried; on the concrete scenario,
the query for M1 returns listings A and B while the query for M2
returns A only. -/
theorem listings_province_wide_by_omission :
    (∀ (d : Directory) (base : List Listing) (pc mc : String)
        (p : Province) (m : Municipality),
      pc ≠ "" → mc ≠ "" →
      getProvince d pc = some p → getMunicipality d mc p = some m →
      ∀ l ∈ base, l.provinceId = some p.id → l.municipalityId = none →
        l ∈ resolve_listings d base (some pc) (some mc) none) ∧
    resolve_listings sampleDir [listA, listB]
      (some codeP1) (some codeM1) none = [listA, listB] ∧
    resolve_listings sampleDir [listA, listB]
      (some codeP1) (some codeM2) none = [listA] := by
  refine ⟨?_, by decide, by decide⟩
  intro d base pc mc p m hpc hmc hp hm l hl hprov hmun
  exact (mem_resolve_listings_municipality d base pc mc p m hpc hmc hp hm l).mpr
    ⟨hl, Or.inr ⟨hprov, hmun⟩⟩

/-- Witness for C6: the province-wide sample listing is returned by the
query for municipality M2. -/
theorem listings_province_wide_by_omission_witness :
    listA ∈ resolve_listings sampleDir [listA, listB]
      (some codeP1) (some codeM2) none :=
  listings_province_wide_by_omission.1 sampleDir [listA, listB]
    codeP1 codeM2 provP1 munM2
    (by decide) (by decide) (by decide) (by decide) listA
    (by decide) (by decide) (by decide)

/-- C7: a listing with a non-null province is returned by a resolving
province-only query exactly when its province matches; on the concrete
scenario, the fully-located listing (P1, M1, B1) is returned by the
province-only query and the M1 query, and not by the M2 query. -/
theorem listings_coarsening_monotonicity :
    (∀ (d : Directory) (base : List Listing) (pc : String) (p : Province),
      pc ≠ "" → getProvince d pc = some p →
      ∀ l : Listing, l.provinceId ≠ none →
        (l ∈ resolve_listings d base (some pc) none none ↔
          l ∈ base ∧ l.provinceId = some p.id)) ∧
    listFull ∈ resolve_listings sampleDir [listFull] (some codeP1) none none ∧
    listFull ∈ resolve_listings sampleDir [listFull]
      (some codeP1) (some codeM1) none ∧
    listFull ∉ resolve_listings sampleDir [listFull]
      (some codeP1) (some codeM2) none := by
  refine ⟨?_, by decide, by decide, by decide⟩
  intro d base pc p hpc hp l _
  exact mem_resolve_listings_province d base pc p hpc hp l

/-- Witness for C7: the province-only characterization instantiated on
the fully-located sample listing. -/
theorem listings_coarsening_monotonicity_witness :
    listFull ∈ resolve_listings sampleDir [listFull] (some codeP1) none none ↔
      listFull ∈ [listFull] ∧ listFull.provinceId = some provP1.id :=
  listings_coarsening_monotonicity.1 sampleDir [listFull] codeP1 provP1
    (by decide) (by decide) listFull (by decide)

/-- C8: a barangay code supplied without both coarser codes is ignored:
whenever the province and municipality parameters are not both
present, both resolvers return the same result with and without the
barangay parameter (the barangay code is never looked up against the
directory in that situation). -/
theorem barangay_code_ignored_without_coarser
    (d : Directory) (lbase : List Listing) (abase : List Announcement)
    (ie : Option String) (today : Int) (pc mc bc : Option String)
    (hbc : present bc = true)
    (h : ¬(present pc = true ∧ present mc = true)) :
    resolve_listings d lbase pc mc bc = resolve_listings d lbase pc mc none ∧
    resolve_announcements d abase ie pc mc bc today =
      resolve_announcements d abase ie pc mc none today := by
  cases hpcv : present pc <;> cases hmcv : present mc <;>
    simp [resolve_listings, resolve_announcements, present_none, hpcv, hmcv,
      hbc] at h ⊢

/-- Witness for C8: a lone barangay parameter leaves both resolvers
unchanged. -/
theorem barangay_code_ignored_without_coarser_witness :
    resolve_listings sampleDir [listA] none none (some codeB1) =
      resolve_listings sampleDir [listA] none none none ∧
    resolve_announcements sampleDir [annMWLow] none none none
        (some codeB1) 0 =
      resolve_announcements sampleDir [annMWLow] none none none none 0 :=
  barangay_code_ignored_without_coarser sampleDir [listA] [annMWLow] none 0
    none none (some codeB1) (by decide) (by decide)

/-- Field names of the three location references. -/
def fieldProvince : String := "province"

/-- Field name of the municipality reference. -/
def fieldMunicipality : String := "municipality"

/-- Field name of the barangay reference. -/
def fieldBarangay : String := "barangay"

/-- The `null=True` status of the three location foreign keys declared on
`Listing` in models.py: province, municipality and barangay all carry
`null=True`. -/
def listingLocationNullable : String → Option Bool
  | "province" => some true
  | "municipality" => some true
  | "barangay" => some true
  | _ => none

/-- The `null=True` status of the three location foreign keys declared on
`Announcement` in models.py: the province and municipality foreign
keys carry no `null=True`; only barangay does. -/
def announcementLocationNullable : String → Option Bool
  | "province" => some false
  | "municipality" => some false
  | "barangay" => some true
  | _ => none

/-- C9 counterexample: the announcement location references are not all
nullable — the province (and municipality) foreign keys of
`Announcement` are declared without `null=True`, unlike those of
`Listing`. -/
theorem announcement_location_nullability_counterexample :
    ¬(announcementLocationNullable fieldProvince = some true ∧
      announcementLocationNullable fieldMunicipality = some true ∧
      announcementLocationNullable fieldBarangay = some true) := by
  decide

/-- C9 (amended): an announcement carries the same three location
reference fields as a listing, but only its barangay reference is
nullable; its province and municipality references are required,
whereas all three are nullable on a listing. -/
theorem announcement_location_nullability :
    announcementLocationNullable fieldProvince = some false ∧
    announcementLocationNullable fieldMunicipality = some false ∧
    announcementLocationNullable fieldBarangay = some true ∧
    listingLocationNullable fieldProvince = some true ∧
    listingLocationNullable fieldMunicipality = some true ∧
    listingLocationNullable fieldBarangay = some true := by
  decide

/-- C10: when a municipality code arrives without a province code, the
two resolvers diverge: the listings resolver ignores the parameter and
returns its base set unchanged, while the announcements resolver looks
the code up with no province constraint and filters to that
municipality (empty when no municipality bears the code). -/
theorem municipality_without_province_divergence
    (d : Directory) (lbase : List Listing) (abase : List Announcement)
    (ie : Option String) (today : Int)
    (mc : String) (pc bc : Option String)
    (hmc : mc ≠ "") (hpc : present pc = false) :
    resolve_listings d lbase pc (some mc) bc = lbase ∧
    (getMunicipalityByCode d mc = none →
      resolve_announcements d abase ie pc (some mc) bc today = []) ∧
    (∀ m, getMunicipalityByCode d mc = some m →
      ∀ a, a ∈ resolve_announcements d abase ie pc (some mc) bc today ↔
        a ∈ abase ∧ a.isActive = true ∧
          keepsUnderExpiryPolicy ie a today = true ∧
          a.municipalityId = m.id) := by
  refine ⟨?_, ?_, ?_⟩
  · simp [resolve_listings, hpc]
  · intro hnone
    simp [resolve_announcements, getParam, present_some hmc, hpc, hnone]
  · intro m hm a
    simp [resolve_announcements, getParam, present_some hmc, hpc, hm,
      List.mem_filter, mem_activeUnexpired, and_assoc]

/-- Witness for C10: with only the code of M1 supplied, the listings
resolver returns its base unchanged and the announcements resolver
filters by M1. -/
theorem municipality_without_province_divergence_witness :
    resolve_listings sampleDir [listA] none (some codeM1) none = [listA] ∧
    (annMWLow ∈ resolve_announcements sampleDir [annMWLow] none none
        (some codeM1) none 0 ↔
      annMWLow ∈ [annMWLow] ∧ annMWLow.isActive = true ∧
        keepsUnderExpiryPolicy none annMWLow 0 = true ∧
        annMWLow.municipalityId = munM1.id) :=
  ⟨(municipality_without_province_divergence sampleDir [listA] [annMWLow]
      none 0 codeM1 none none (by decide) (by decide)).1,
   (municipality_without_province_divergence sampleDir [listA] [annMWLow]
      none 0 codeM1 none none (by decide) (by decide)).2.2 munM1
      (by decide) annMWLow⟩

/-- Every location branch of the announcements resolver only narrows the
active+expiry stage: membership in the final result implies membership
in that stage. -/
theorem mem_activeUnexpired_of_mem_resolve_announcements
    {d : Directory} {base : List Announcement} {ie : Option String}
    {pc mc bc : Option String} {today : Int} {a : Announcement}
    (h : a ∈ resolve_announcements d base ie pc mc bc today) :
    a ∈ activeUnexpired base ie today := by
  simp only [resolve_announcements] at h
  repeat' split at h
  all_goals first
    | exact absurd h (List.not_mem_nil _)
    | exact h
    | exact List.mem_of_mem_filter h

/-- C4: fail-closed resolution. Whenever a supplied code fails to
resolve at its expected level — the province code matches no province,
or the municipality code matches no municipality under the resolved
province, or the barangay code matches no barangay under the resolved
municipality — both resolvers return the empty result (rather than an
error, which the source converts to an empty queryset by catching
DoesNotExist). -/
theorem resolvers_fail_closed
    (d : Directory) (lbase : List Listing) (abase : List Announcement)
    (ie : Option String) (today : Int) (pc mc bc : Option String)
    (h : (∃ s, pc = some s ∧ s ≠ "" ∧ getProvince d s = none) ∨
         (∃ s t p, pc = some s ∧ mc = some t ∧ s ≠ "" ∧ t ≠ "" ∧
           getProvince d s = some p ∧ getMunicipality d t p = none) ∨
         (∃ s t u p m, pc = some s ∧ mc = some t ∧ bc = some u ∧
           s ≠ "" ∧ t ≠ "" ∧ u ≠ "" ∧
           getProvince d s = some p ∧ getMunicipality d t p = some m ∧
           getBarangay d u m = none)) :
    resolve_listings d lbase pc mc bc = [] ∧
    resolve_announcements d abase ie pc mc bc today = [] := by
  rcases h with ⟨s, rfl, hs, hnone⟩ |
    ⟨s, t, p, rfl, rfl, hs, ht, hp, hmn⟩ |
    ⟨s, t, u, p, m, rfl, rfl, rfl, hs, ht, hu, hp, hm, hbn⟩
  · constructor <;>
    · cases hmcv : present mc <;> cases hbcv : present bc <;>
        simp [resolve_listings, resolve_announcements, getParam,
          present_some hs, hnone, hmcv, hbcv]
  · constructor <;>
    · cases hbcv : present bc <;>
        simp [resolve_listings, resolve_announcements, getParam,
          present_some hs, present_some ht, hp, hmn, hbcv]
  · constructor <;>
      simp [resolve_listings, resolve_announcements, getParam,
        present_some hs, present_some ht, present_some hu, hp, hm, hbn]

/-- Witness for C4: an unknown province code empties both resolvers. -/
theorem resolvers_fail_closed_witness :
    resolve_listings sampleDir [listA] (some codeUnknown) none none = [] ∧
    resolve_announcements sampleDir [annMWLow] none (some codeUnknown)
      none none 0 = [] :=
  resolvers_fail_closed sampleDir [listA] [annMWLow] none 0
    (some codeUnknown) none none
    (Or.inl ⟨codeUnknown, rfl, by decide, by decide⟩)

/-- C5: expiry filtering. Any announcement returned under the default
expiry policy (the include_expired parameter absent or not
lower-casing to the string true) is not strictly expired, at every
location scope; an announcement whose expiry date is today or later
never counts as expired (date granularity); and on the no-codes query
the default result keeps exactly the active, not-strictly-expired
announcements, while passing include_expired as the string true
disables the expiry filter entirely. -/
theorem announcements_expiry_filtering
    (d : Directory) (base : List Announcement) (today : Int)
    (a : Announcement) :
    (∀ (ie pc mc bc : Option String),
      strLower (ie.getD strFalse) ≠ strTrue →
      a ∈ resolve_announcements d base ie pc mc bc today →
      expiredBefore a today = false) ∧
    (∀ e : Int, a.expiryDate = some e → today ≤ e →
      expiredBefore a today = false) ∧
    (a ∈ resolve_announcements d base none none none none today ↔
      a ∈ base ∧ a.isActive = true ∧ expiredBefore a today = false) ∧
    (a ∈ resolve_announcements d base (some strTrue) none none none today ↔
      a ∈ base ∧ a.isActive = true) ∧
    (∀ ie : Option String, strLower (ie.getD strFalse) = strTrue →
      activeUnexpired base ie today = base.filter (fun x => x.isActive)) := by
  refine ⟨?_, ?_, ?_, ?_, ?_⟩
  · intro ie pc mc bc hdef hmem
    have hstage := mem_activeUnexpired_of_mem_resolve_announcements hmem
    have hkeep := (mem_activeUnexpired.mp hstage).2.2
    simpa [keepsUnderExpiryPolicy, hdef] using hkeep
  · intro e he hle
    simp [expiredBefore, he, not_lt.mpr hle]
  · simp [resolve_announcements, present_none, mem_activeUnexpired,
      keepsUnderExpiryPolicy, show strLower strFalse ≠ strTrue by decide]
  · simp [resolve_announcements, present_none, mem_activeUnexpired,
      keepsUnderExpiryPolicy, show strLower strTrue = strTrue by decide]
  · intro ie hie
    simp [activeUnexpired, hie]

/-- Witness for C5: the sample announcement expiring on day -1 is
excluded on day 0 by default and included when include_expired is
true. -/
theorem announcements_expiry_filtering_witness :
    annExpired ∉ resolve_announcements sampleDir [annExpired]
      none none none none 0 ∧
    annExpired ∈ resolve_announcements sampleDir [annExpired]
      (some strTrue) none none none 0 := by
  have h := announcements_expiry_filtering sampleDir [annExpired] 0 annExpired
  refine ⟨fun hmem => ?_, h.2.2.2.1.mpr (by decide)⟩
  exact absurd (h.2.2.1.mp hmem).2.2 (by decide)

end IslaList
